import Mathlib

/-!
Verification development for the Nemostore EDA dashboard (`app.py`).

The dataset is modelled as a `Frame`: a list of `Row`s together with one
presence flag per column whose existence the code tests (pandas stores
column existence at the DataFrame level).  A cell holds `Option ℚ`
(`none` models a missing value / NaN, which in pandas propagates through
arithmetic and makes every comparison false) or `Option String` for text
columns.  Monetary and count cells are rationals so that the division in
`rent_per_area` is exact.
-/

namespace NemoStore

/-- Structured date produced by timestamp parsing (models a pandas datetime). -/
structure Date where
  year : Nat
  month : Nat
  day : Nat
  deriving DecidableEq, Repr

/-- One listing record.  `createdDateUtc` is the raw string cell; `createdDate`
is the structured timestamp the Preprocessor writes back.  `interestScore` and
`rent_per_area` are the derived columns (absent, i.e. meaningless, before
preprocessing). -/
structure Row where
  title : Option String
  businessLargeCodeName : Option String
  businessMiddleCodeName : Option String
  nearSubwayStation : Option String
  deposit : Option ℚ
  monthlyRent : Option ℚ
  premium : Option ℚ
  maintenanceFee : Option ℚ
  size : Option ℚ
  viewCount : Option ℚ
  favoriteCount : Option ℚ
  createdDateUtc : Option String
  interestScore : Option ℚ
  rent_per_area : Option ℚ
  createdDate : Option Date
  deriving DecidableEq, Repr

/-- A dataset: per-column presence flags (for the columns the code tests
with `in df.columns` or accesses with a raising `row[col]`) plus the rows. -/
structure Frame where
  hasDeposit : Bool
  hasMonthlyRent : Bool
  hasPremium : Bool
  hasMaintenanceFee : Bool
  hasSize : Bool
  hasViewCount : Bool
  hasFavoriteCount : Bool
  hasCreatedDateUtc : Bool
  rows : List Row
  deriving DecidableEq, Repr

/-- Row with every cell missing; concrete rows are built from it by record update. -/
def blankRow : Row where
  title := none
  businessLargeCodeName := none
  businessMiddleCodeName := none
  nearSubwayStation := none
  deposit := none
  monthlyRent := none
  premium := none
  maintenanceFee := none
  size := none
  viewCount := none
  favoriteCount := none
  createdDateUtc := none
  interestScore := none
  rent_per_area := none
  createdDate := none

/-- Python `row.get(col, 0)`: the default `0` is returned only when the column
is absent from the row index; a present-but-NaN cell stays NaN (`none`). -/
def seriesGet (present : Bool) (cell : Option ℚ) : Option ℚ :=
  if present then cell else some 0

/-- `calculate_interest_score` (app.py line 21):
`row.get('viewCount', 0) + (row.get('favoriteCount', 0) * 3)`.
NaN in either operand propagates (`none`). -/
def calculate_interest_score (hasVC hasFC : Bool) (r : Row) : Option ℚ :=
  match seriesGet hasVC r.viewCount, seriesGet hasFC r.favoriteCount with
  | some v, some f => some (v + f * 3)
  | _, _ => none

/-- `df[col] = df[col] * 1000` applied when the column is present
(app.py lines 59-61); NaN cells stay NaN. -/
def scaleCell (present : Bool) (c : Option ℚ) : Option ℚ :=
  if present then c.map (fun x => x * 1000) else c

/-- The unit-conversion pass over one row (app.py lines 58-61). -/
def scaleRow (df : Frame) (r : Row) : Row :=
  { r with
    deposit := scaleCell df.hasDeposit r.deposit
    monthlyRent := scaleCell df.hasMonthlyRent r.monthlyRent
    premium := scaleCell df.hasPremium r.premium
    maintenanceFee := scaleCell df.hasMaintenanceFee r.maintenanceFee }

/-- Column assignment `df['interestScore'] = df.apply(calculate_interest_score, axis=1)`. -/
def interestRow (df : Frame) (r : Row) : Row :=
  { r with interestScore := calculate_interest_score df.hasViewCount df.hasFavoriteCount r }

/-- The lambda of app.py line 68: `(r['monthlyRent'] / r['size']) if r['size'] > 0 else 0`.
In Python `NaN > 0` is `False`, so a NaN size yields `0`; a NaN rent with a
positive size yields NaN. -/
def rentPerAreaCell (mr sz : Option ℚ) : Option ℚ :=
  match sz with
  | some s => if 0 < s then mr.map (fun m => m / s) else some 0
  | none => some 0

/-- Column assignment `df['rent_per_area'] = df.apply(lambda ..., axis=1)`. -/
def rpaRow (r : Row) : Row :=
  { r with rent_per_area := rentPerAreaCell r.monthlyRent r.size }

/-- Modelled library function (`pd.to_datetime` on one value, default
`errors='raise'`): a simplified ISO-8601 parser.  A well-formed
`YYYY-MM-DD` prefix (optionally followed by a `T` or blank and a time part)
parses; anything else is unparseable and, in pandas, raises `ValueError`. -/
def parseTS (s : String) : Option Date :=
  match s.toList with
  | y1 :: y2 :: y3 :: y4 :: '-' :: m1 :: m2 :: '-' :: d1 :: d2 :: rest =>
    if (y1.isDigit && y2.isDigit && y3.isDigit && y4.isDigit &&
        m1.isDigit && m2.isDigit && d1.isDigit && d2.isDigit) &&
       (match rest with
        | [] => true
        | 'T' :: _ => true
        | ' ' :: _ => true
        | _ => false) then
      let dv : Char → Nat := fun c => c.toNat - '0'.toNat
      let y := ((dv y1 * 10 + dv y2) * 10 + dv y3) * 10 + dv y4
      let m := dv m1 * 10 + dv m2
      let d := dv d1 * 10 + dv d2
      if 1 ≤ m && m ≤ 12 && 1 ≤ d && d ≤ 31 then some ⟨y, m, d⟩ else none
    else none
  | _ => none

/-- `pd.to_datetime` on one cell: NaN becomes NaT (`none`); an unparseable
string raises (modelled as `Except.error`). -/
def parseRowDate (r : Row) : Except String Row :=
  match r.createdDateUtc with
  | none => .ok { r with createdDate := none }
  | some s =>
    match parseTS s with
    | some d => .ok { r with createdDate := some d }
    | none => .error "ValueError: could not parse timestamp"

/-- `df['createdDateUtc'] = pd.to_datetime(df['createdDateUtc'])` over the whole
column: the first unparseable value aborts the conversion with an error. -/
def parseDateColumn : List Row → Except String (List Row)
  | [] => .ok []
  | r :: rs =>
    match parseRowDate r with
    | .ok r2 =>
      match parseDateColumn rs with
      | .ok rs2 => .ok (r2 :: rs2)
      | .error e => .error e
    | .error e => .error e

/-- `preprocess_data` (app.py lines 52-74).  An empty dataset is returned
unchanged.  Otherwise: unit conversion of the four monetary columns that are
present, the interest-score column, the rent-per-area column — whose lambda
reads `r['monthlyRent']` and `r['size']` and therefore raises `KeyError`
on the first row when either column is absent — and finally timestamp
conversion when `createdDateUtc` exists, which raises on unparseable values. -/
def preprocess_data (df : Frame) : Except String Frame :=
  if df.rows.isEmpty then .ok df
  else if df.hasMonthlyRent && df.hasSize then
    if df.hasCreatedDateUtc then
      match parseDateColumn (((df.rows.map (scaleRow df)).map (interestRow df)).map rpaRow) with
      | .ok rows2 => .ok { df with rows := rows2 }
      | .error e => .error e
    else .ok { df with rows := ((df.rows.map (scaleRow df)).map (interestRow df)).map rpaRow }
  else .error "KeyError: monthlyRent or size"

/-- The per-row enrichment pipeline, excluding the timestamp stage. -/
def enrichRow (df : Frame) (r : Row) : Row :=
  rpaRow (interestRow df (scaleRow df r))

/-- The timestamp stage as a per-row function. -/
def dateStage (df : Frame) (r : Row) : Except String Row :=
  if df.hasCreatedDateUtc then parseRowDate r else .ok r

@[simp] lemma enrichRow_deposit (df : Frame) (r : Row) :
    (enrichRow df r).deposit = scaleCell df.hasDeposit r.deposit := rfl

@[simp] lemma enrichRow_monthlyRent (df : Frame) (r : Row) :
    (enrichRow df r).monthlyRent = scaleCell df.hasMonthlyRent r.monthlyRent := rfl

@[simp] lemma enrichRow_premium (df : Frame) (r : Row) :
    (enrichRow df r).premium = scaleCell df.hasPremium r.premium := rfl

@[simp] lemma enrichRow_maintenanceFee (df : Frame) (r : Row) :
    (enrichRow df r).maintenanceFee = scaleCell df.hasMaintenanceFee r.maintenanceFee := rfl

@[simp] lemma enrichRow_size (df : Frame) (r : Row) : (enrichRow df r).size = r.size := rfl

@[simp] lemma enrichRow_createdDateUtc (df : Frame) (r : Row) :
    (enrichRow df r).createdDateUtc = r.createdDateUtc := rfl

@[simp] lemma enrichRow_interestScore (df : Frame) (r : Row) :
    (enrichRow df r).interestScore =
      calculate_interest_score df.hasViewCount df.hasFavoriteCount r := rfl

@[simp] lemma enrichRow_rent_per_area (df : Frame) (r : Row) :
    (enrichRow df r).rent_per_area =
      rentPerAreaCell (scaleCell df.hasMonthlyRent r.monthlyRent) r.size := rfl

lemma parseRowDate_ok_eq {r r2 : Row} (h : parseRowDate r = .ok r2) :
    (r.createdDateUtc = none ∧ r2 = { r with createdDate := none }) ∨
    (∃ s d, r.createdDateUtc = some s ∧ parseTS s = some d ∧
      r2 = { r with createdDate := some d }) := by
  unfold parseRowDate at h
  split at h
  next heq => exact Or.inl ⟨heq, (Except.ok.inj h).symm⟩
  next s heq =>
    split at h
    next d hd => exact Or.inr ⟨s, d, heq, hd, (Except.ok.inj h).symm⟩
    next => exact absurd h (by simp)

lemma dateStage_ok_eq {df : Frame} {r r2 : Row} (h : dateStage df r = .ok r2) :
    (df.hasCreatedDateUtc = false ∧ r2 = r) ∨
    (df.hasCreatedDateUtc = true ∧ parseRowDate r = .ok r2) := by
  unfold dateStage at h
  split at h
  next hc => exact Or.inr ⟨hc, h⟩
  next hc => exact Or.inl ⟨by simpa using hc, (Except.ok.inj h).symm⟩

/-- Every field other than `createdDate` survives the timestamp stage. -/
lemma dateStage_ok_fields {df : Frame} {r r2 : Row} (h : dateStage df r = .ok r2) :
    r2.deposit = r.deposit ∧ r2.monthlyRent = r.monthlyRent ∧ r2.premium = r.premium ∧
    r2.maintenanceFee = r.maintenanceFee ∧ r2.size = r.size ∧
    r2.interestScore = r.interestScore ∧ r2.rent_per_area = r.rent_per_area ∧
    r2.createdDateUtc = r.createdDateUtc := by
  rcases dateStage_ok_eq h with ⟨_, rfl⟩ | ⟨_, hp⟩
  · exact ⟨rfl, rfl, rfl, rfl, rfl, rfl, rfl, rfl⟩
  · rcases parseRowDate_ok_eq hp with ⟨_, rfl⟩ | ⟨s, d, _, _, rfl⟩ <;>
      exact ⟨rfl, rfl, rfl, rfl, rfl, rfl, rfl, rfl⟩

lemma parseDateColumn_ok : ∀ {rows rows2 : List Row}, parseDateColumn rows = .ok rows2 →
    rows2.length = rows.length ∧
    ∀ i (hi : i < rows.length) (hi2 : i < rows2.length),
      parseRowDate (rows.get ⟨i, hi⟩) = .ok (rows2.get ⟨i, hi2⟩) := by
  intro rows
  induction rows with
  | nil =>
    intro rows2 h
    unfold parseDateColumn at h
    obtain rfl : ([] : List Row) = rows2 := Except.ok.inj h
    exact ⟨rfl, fun i hi _ => absurd hi (by simp)⟩
  | cons r rs ih =>
    intro rows2 h
    unfold parseDateColumn at h
    split at h
    next r2 hr2 =>
      split at h
      next rs2 hrs2 =>
        obtain rfl : r2 :: rs2 = rows2 := Except.ok.inj h
        obtain ⟨hlen, hget⟩ := ih hrs2
        refine ⟨by simp [hlen], ?_⟩
        intro i hi hi2
        match i with
        | 0 => simpa using hr2
        | n + 1 =>
          have hn : n < rs.length := by simpa using hi
          have hn2 : n < rs2.length := by simpa using hi2
          simpa using hget n hn hn2
      next => exact absurd h (by simp)
    next => exact absurd h (by simp)

lemma parseDateColumn_error {rows : List Row}
    (h : ∃ r ∈ rows, ∃ s, r.createdDateUtc = some s ∧ parseTS s = none) :
    ∃ e, parseDateColumn rows = .error e := by
  induction rows with
  | nil => simp at h
  | cons r rs ih =>
    rcases h with ⟨r0, hr0, s, hs, hps⟩
    rcases List.mem_cons.mp hr0 with rfl | hmem
    · have hpr : parseRowDate r0 = .error "ValueError: could not parse timestamp" := by
        simp [parseRowDate, hs, hps]
      exact ⟨_, by unfold parseDateColumn; rw [hpr]⟩
    · rcases hp : parseRowDate r with e | r2
      · exact ⟨e, by unfold parseDateColumn; rw [hp]⟩
      · rcases ih ⟨r0, hmem, s, hs, hps⟩ with ⟨e, he⟩
        exact ⟨e, by unfold parseDateColumn; rw [hp, he]⟩

/-- Characterization of a successful preprocessing run: all column flags are
preserved, the row count is preserved, and each output row is the enrichment
(unit conversion, interest score, rent-per-area, then timestamp stage) of the
input row at the same position. -/
theorem preprocess_ok_spec {df df' : Frame} (h : preprocess_data df = .ok df') :
    df'.hasDeposit = df.hasDeposit ∧ df'.hasMonthlyRent = df.hasMonthlyRent ∧
    df'.hasPremium = df.hasPremium ∧ df'.hasMaintenanceFee = df.hasMaintenanceFee ∧
    df'.hasSize = df.hasSize ∧ df'.hasViewCount = df.hasViewCount ∧
    df'.hasFavoriteCount = df.hasFavoriteCount ∧ df'.hasCreatedDateUtc = df.hasCreatedDateUtc ∧
    df'.rows.length = df.rows.length ∧
    ∀ i (hi : i < df.rows.length) (hi' : i < df'.rows.length),
      dateStage df (enrichRow df (df.rows.get ⟨i, hi⟩)) = .ok (df'.rows.get ⟨i, hi'⟩) := by
  unfold preprocess_data at h
  split at h
  next hemp =>
    obtain rfl : df = df' := Except.ok.inj h
    have hnil : df.rows = [] := List.isEmpty_iff.mp hemp
    exact ⟨rfl, rfl, rfl, rfl, rfl, rfl, rfl, rfl, rfl,
      fun i hi _ => absurd hi (by rw [hnil]; simp)⟩
  next hemp =>
    split at h
    next hms =>
      split at h
      next hc =>
        split at h
        next rows2 hpd =>
          obtain rfl : { df with rows := rows2 } = df' := Except.ok.inj h
          obtain ⟨hlen, hget⟩ := parseDateColumn_ok hpd
          refine ⟨rfl, rfl, rfl, rfl, rfl, rfl, rfl, rfl, by simpa using hlen, ?_⟩
          intro i hi hi'
          have hmi : i < (((df.rows.map (scaleRow df)).map (interestRow df)).map rpaRow).length := by
            simpa using hi
          have := hget i hmi (by simpa using hi')
          rw [dateStage, if_pos hc]
          have hmap : (((df.rows.map (scaleRow df)).map (interestRow df)).map rpaRow).get ⟨i, hmi⟩
              = enrichRow df (df.rows.get ⟨i, hi⟩) := by
            simp [enrichRow, List.get_eq_getElem]
          rwa [hmap] at this
        next => exact absurd h (by simp)
      next hc =>
        obtain rfl : { df with rows := ((df.rows.map (scaleRow df)).map (interestRow df)).map rpaRow } = df' :=
          Except.ok.inj h
        refine ⟨rfl, rfl, rfl, rfl, rfl, rfl, rfl, rfl, by simp, ?_⟩
        intro i hi hi'
        rw [dateStage, if_neg hc]
        congr 1
        simp [enrichRow, List.get_eq_getElem]
    next => exact absurd h (by simp)

/-- A nonempty dataset whose `createdDateUtc` column contains an unparseable
value makes `preprocess_data` raise (provided the rent-per-area stage got past
its own column accesses). -/
lemma preprocess_error_of_badTS (df : Frame) (hm : df.hasMonthlyRent = true)
    (hs : df.hasSize = true) (hc : df.hasCreatedDateUtc = true)
    (hbad : ∃ r ∈ df.rows, ∃ s, r.createdDateUtc = some s ∧ parseTS s = none) :
    ∃ e, preprocess_data df = .error e := by
  have hne : df.rows.isEmpty = false := by
    rcases hbad with ⟨r, hr, _⟩
    cases h0 : df.rows with
    | nil => rw [h0] at hr; simp at hr
    | cons a as => simp [h0]
  have hbad2 : ∃ r ∈ ((df.rows.map (scaleRow df)).map (interestRow df)).map rpaRow,
      ∃ s, r.createdDateUtc = some s ∧ parseTS s = none := by
    rcases hbad with ⟨r, hr, s, hcell, hps⟩
    refine ⟨enrichRow df r, ?_, s, by simpa using hcell, hps⟩
    simp only [List.map_map, List.mem_map]
    exact ⟨r, hr, rfl⟩
  rcases parseDateColumn_error hbad2 with ⟨e, he⟩
  refine ⟨e, ?_⟩
  unfold preprocess_data
  rw [hne, hm, hs, hc]
  simp only [List.map_map] at he
  simp [he]

/-- C1 (amended): after preprocessing, every record's `interestScore` is
`viewCount + 3 × favoriteCount` and is non-negative when the counts are —
where a count whose *column* is absent is read as `0` (`row.get(col, 0)`),
and both counts are required to be present values; a count missing from an
individual record (NaN in a present column) instead propagates and makes
`interestScore` NaN, which `claim_C1_cex` exhibits. -/
theorem claim_C1 (df df' : Frame) (h : preprocess_data df = .ok df')
    (i : ℕ) (hi : i < df.rows.length) (hi' : i < df'.rows.length)
    (v f : ℚ)
    (hv : seriesGet df.hasViewCount (df.rows.get ⟨i, hi⟩).viewCount = some v)
    (hf : seriesGet df.hasFavoriteCount (df.rows.get ⟨i, hi⟩).favoriteCount = some f)
    (hv0 : 0 ≤ v) (hf0 : 0 ≤ f) :
    (df'.rows.get ⟨i, hi'⟩).interestScore = some (v + 3 * f) ∧
    ∃ q, (df'.rows.get ⟨i, hi'⟩).interestScore = some q ∧ 0 ≤ q := by
  obtain ⟨_, _, _, _, _, _, _, _, _, hget⟩ := preprocess_ok_spec h
  have hds := hget i hi hi'
  obtain ⟨_, _, _, _, _, his, _, _⟩ := dateStage_ok_fields hds
  rw [his, enrichRow_interestScore]
  have hcalc : calculate_interest_score df.hasViewCount df.hasFavoriteCount
      (df.rows.get ⟨i, hi⟩) = some (v + f * 3) := by
    unfold calculate_interest_score
    rw [hv, hf]
  rw [hcalc]
  exact ⟨by congr 1; ring, v + f * 3, rfl, by linarith⟩

/-- C2: after preprocessing, a record with positive size has
`rent_per_area = monthlyRent / size` (with `monthlyRent` already converted),
a record with non-positive size has `rent_per_area = 0`, and `rent_per_area`
is non-negative whenever `monthlyRent` is. -/
theorem claim_C2 (df df' : Frame) (h : preprocess_data df = .ok df')
    (i : ℕ) (hi : i < df.rows.length) (hi' : i < df'.rows.length)
    (s m : ℚ)
    (hs : (df'.rows.get ⟨i, hi'⟩).size = some s)
    (hm : (df'.rows.get ⟨i, hi'⟩).monthlyRent = some m) :
    (0 < s → (df'.rows.get ⟨i, hi'⟩).rent_per_area = some (m / s)) ∧
    (s ≤ 0 → (df'.rows.get ⟨i, hi'⟩).rent_per_area = some 0) ∧
    (0 ≤ m → ∃ q, (df'.rows.get ⟨i, hi'⟩).rent_per_area = some q ∧ 0 ≤ q) := by
  obtain ⟨_, _, _, _, _, _, _, _, _, hget⟩ := preprocess_ok_spec h
  have hds := hget i hi hi'
  obtain ⟨_, hmr, _, _, hsz, _, hrpa, _⟩ := dateStage_ok_fields hds
  rw [hsz, enrichRow_size] at hs
  rw [hmr, enrichRow_monthlyRent] at hm
  rw [hrpa, enrichRow_rent_per_area, hm, hs]
  refine ⟨fun hpos => ?_, fun hneg => ?_, fun hm0 => ?_⟩
  · simp [rentPerAreaCell, if_pos hpos]
  · simp [rentPerAreaCell, if_neg (not_lt.mpr hneg)]
  · rcases lt_or_le 0 s with hpos | hle
    · exact ⟨m / s, by simp [rentPerAreaCell, if_pos hpos], div_nonneg hm0 hpos.le⟩
    · exact ⟨0, by simp [rentPerAreaCell, if_neg (not_lt.mpr hle)], le_refl 0⟩

/-- C3: preprocessing multiplies each of the four monetary columns by exactly
1000 when the column is present, leaves an absent monetary column absent, and
returns an empty dataset unchanged. -/
theorem claim_C3 (df df' : Frame) (h : preprocess_data df = .ok df') :
    (df.rows = [] → df' = df) ∧
    ((df.hasDeposit = false → df'.hasDeposit = false) ∧
     (df.hasMonthlyRent = false → df'.hasMonthlyRent = false) ∧
     (df.hasPremium = false → df'.hasPremium = false) ∧
     (df.hasMaintenanceFee = false → df'.hasMaintenanceFee = false)) ∧
    ∀ i (hi : i < df.rows.length) (hi' : i < df'.rows.length),
      (df.hasDeposit = true →
        (df'.rows.get ⟨i, hi'⟩).deposit =
          ((df.rows.get ⟨i, hi⟩).deposit).map (fun x => x * 1000)) ∧
      (df.hasMonthlyRent = true →
        (df'.rows.get ⟨i, hi'⟩).monthlyRent =
          ((df.rows.get ⟨i, hi⟩).monthlyRent).map (fun x => x * 1000)) ∧
      (df.hasPremium = true →
        (df'.rows.get ⟨i, hi'⟩).premium =
          ((df.rows.get ⟨i, hi⟩).premium).map (fun x => x * 1000)) ∧
      (df.hasMaintenanceFee = true →
        (df'.rows.get ⟨i, hi'⟩).maintenanceFee =
          ((df.rows.get ⟨i, hi⟩).maintenanceFee).map (fun x => x * 1000)) := by
  obtain ⟨hfd, hfm, hfp, hff, _, _, _, _, _, hget⟩ := preprocess_ok_spec h
  refine ⟨?_, ⟨fun hf0 => by rw [hfd, hf0], fun hf0 => by rw [hfm, hf0],
    fun hf0 => by rw [hfp, hf0], fun hf0 => by rw [hff, hf0]⟩, ?_⟩
  · intro hnil
    have hok : preprocess_data df = .ok df := by
      unfold preprocess_data
      rw [hnil]
      simp
    rw [hok] at h
    exact (Except.ok.inj h).symm
  · intro i hi hi'
    have hds := hget i hi hi'
    obtain ⟨hdep, hmr, hprem, hfee, _, _, _, _⟩ := dateStage_ok_fields hds
    exact ⟨fun ht => by rw [hdep, enrichRow_deposit]; simp [scaleCell, ht],
      fun ht => by rw [hmr, enrichRow_monthlyRent]; simp [scaleCell, ht],
      fun ht => by rw [hprem, enrichRow_premium]; simp [scaleCell, ht],
      fun ht => by rw [hfee, enrichRow_maintenanceFee]; simp [scaleCell, ht]⟩

/-- C6 (amended): when the `createdDateUtc` column exists, a missing value is
parsed to a null timestamp and a well-formed value to its structured date;
but an unparseable value makes the Preprocessor raise an error rather than
producing a null — the code calls `pd.to_datetime` with the default
`errors='raise'`. -/
theorem claim_C6_amended :
    (∀ df df', preprocess_data df = .ok df' → df.hasCreatedDateUtc = true →
      ∀ i (hi : i < df.rows.length) (hi' : i < df'.rows.length),
        ((df.rows.get ⟨i, hi⟩).createdDateUtc = none →
          (df'.rows.get ⟨i, hi'⟩).createdDate = none) ∧
        (∀ s, (df.rows.get ⟨i, hi⟩).createdDateUtc = some s →
          ∃ d, parseTS s = some d ∧ (df'.rows.get ⟨i, hi'⟩).createdDate = some d)) ∧
    (∀ df, df.hasMonthlyRent = true → df.hasSize = true → df.hasCreatedDateUtc = true →
      (∃ r ∈ df.rows, ∃ s, r.createdDateUtc = some s ∧ parseTS s = none) →
      ∃ e, preprocess_data df = .error e) := by
  constructor
  · intro df df' h hc i hi hi'
    obtain ⟨_, _, _, _, _, _, _, _, _, hget⟩ := preprocess_ok_spec h
    have hds := hget i hi hi'
    rcases dateStage_ok_eq hds with ⟨hc0, _⟩ | ⟨_, hp⟩
    · rw [hc] at hc0; exact absurd hc0 (by simp)
    · rcases parseRowDate_ok_eq hp with ⟨hn, hout⟩ | ⟨s, d, hsome, hpd, hout⟩
      · rw [enrichRow_createdDateUtc] at hn
        refine ⟨fun _ => by rw [hout], fun s hsval => ?_⟩
        rw [hsval] at hn
        exact absurd hn (by simp)
      · rw [enrichRow_createdDateUtc] at hsome
        refine ⟨fun hnone => ?_, fun t htval => ?_⟩
        · rw [hnone] at hsome; exact absurd hsome (by simp)
        · rw [htval] at hsome
          obtain rfl : s = t := by injection hsome with h2; exact h2.symm
          exact ⟨d, hpd, by rw [hout]⟩
  · intro df hm hs hc hbad
    exact preprocess_error_of_badTS df hm hs hc hbad

/-- C7 (amended): the Preprocessor tolerates absence of `viewCount`,
`favoriteCount`, `createdDateUtc` and any of the monetary columns — it skips
the corresponding conversion or treats the count as 0 — and succeeds whenever
`monthlyRent` and `size` are present; absence of `monthlyRent` or `size`,
however, makes the rent-per-area row lambda raise `KeyError` on a nonempty
dataset instead of being skipped. -/
theorem claim_C7_amended (df : Frame) (hm : df.hasMonthlyRent = true)
    (hs : df.hasSize = true) (hc : df.hasCreatedDateUtc = false) :
    ∃ df', preprocess_data df = .ok df' := by
  cases hemp : df.rows.isEmpty with
  | true => exact ⟨df, by unfold preprocess_data; rw [hemp]; simp⟩
  | false =>
    refine ⟨{ df with rows := ((df.rows.map (scaleRow df)).map (interestRow df)).map rpaRow }, ?_⟩
    unfold preprocess_data
    rw [hemp, hm, hs, hc]
    simp

/-- Concrete raw dataset used to witness the preprocessing claims:
`premium` and `maintenanceFee` columns are absent, everything else present. -/
def w1row : Row :=
  { blankRow with
    title := some "A"
    deposit := some 100
    monthlyRent := some 50
    premium := some 7
    size := some 10
    viewCount := some 10
    favoriteCount := some 2
    createdDateUtc := some "2024-01-15" }

def w1df : Frame where
  hasDeposit := true
  hasMonthlyRent := true
  hasPremium := false
  hasMaintenanceFee := false
  hasSize := true
  hasViewCount := true
  hasFavoriteCount := true
  hasCreatedDateUtc := true
  rows := [w1row]

/-- The enrichment of `w1row` under `w1df`: deposit and rent scaled by 1000
(`premium` untouched, its column being absent), interest `10 + 2·3 = 16`,
rent-per-area `50000 / 10 = 5000`, parsed timestamp. -/
def w1outRow : Row :=
  { blankRow with
    title := some "A"
    deposit := some 100000
    monthlyRent := some 50000
    premium := some 7
    size := some 10
    viewCount := some 10
    favoriteCount := some 2
    createdDateUtc := some "2024-01-15"
    interestScore := some 16
    rent_per_area := some 5000
    createdDate := some ⟨2024, 1, 15⟩ }

def w1out : Frame := { w1df with rows := [w1outRow] }

lemma w1_parse : parseTS "2024-01-15" = some ⟨2024, 1, 15⟩ := by decide

lemma w1_pre : preprocess_data w1df = Except.ok w1out := by
  unfold preprocess_data
  norm_num [w1df, w1out, w1row, w1outRow, blankRow, scaleRow, interestRow, rpaRow, scaleCell,
    calculate_interest_score, seriesGet, rentPerAreaCell, parseDateColumn, parseRowDate, w1_parse,
    Frame.mk.injEq, Row.mk.injEq]

/-- Record whose `viewCount` cell is missing (NaN) while the column exists. -/
def c1row : Row :=
  { blankRow with
    favoriteCount := some 2
    monthlyRent := some 0
    size := some 1 }

def c1df : Frame where
  hasDeposit := false
  hasMonthlyRent := true
  hasPremium := false
  hasMaintenanceFee := false
  hasSize := true
  hasViewCount := true
  hasFavoriteCount := true
  hasCreatedDateUtc := false
  rows := [c1row]

/-- Enrichment of `c1row`: the NaN `viewCount` propagates into the score. -/
def c1outRow : Row :=
  { blankRow with
    favoriteCount := some 2
    monthlyRent := some 0
    size := some 1
    rent_per_area := some 0 }

/-- Counterexample to C1 as stated: for the record of `c1df`, whose
`viewCount` is missing (the column exists, the cell is NaN) and whose
`favoriteCount` is 2, the enriched `interestScore` is NaN — not
`0 + 3 × 2` as the missing-treated-as-0 reading predicts. -/
theorem claim_C1_cex :
    preprocess_data c1df = Except.ok { c1df with rows := [c1outRow] } ∧
    c1outRow.interestScore = none ∧ c1outRow.interestScore ≠ some (0 + 3 * 2) := by
  refine ⟨?_, rfl, by simp [c1outRow, blankRow]⟩
  unfold preprocess_data
  norm_num [c1df, c1row, c1outRow, blankRow, scaleRow, interestRow, rpaRow, scaleCell,
    calculate_interest_score, seriesGet, rentPerAreaCell, Frame.mk.injEq, Row.mk.injEq]

lemma w1_le10 : (0 : ℚ) ≤ 10 := by norm_num

lemma w1_le2 : (0 : ℚ) ≤ 2 := by norm_num

/-- Witness for C1 at the concrete dataset `w1df`. -/
theorem claim_C1_witness :
    (w1out.rows.get ⟨0, by decide⟩).interestScore = some (10 + 3 * 2) ∧
    ∃ q, (w1out.rows.get ⟨0, by decide⟩).interestScore = some q ∧ 0 ≤ q :=
  claim_C1 w1df w1out w1_pre 0 (by decide) (by decide) 10 2 rfl rfl w1_le10 w1_le2

lemma w1_lt10 : (0 : ℚ) < 10 := by norm_num

/-- Witness for C2 at the concrete dataset `w1df`. -/
theorem claim_C2_witness :
    (0 < (10 : ℚ) → (w1out.rows.get ⟨0, by decide⟩).rent_per_area = some (50000 / 10)) ∧
    ((10 : ℚ) ≤ 0 → (w1out.rows.get ⟨0, by decide⟩).rent_per_area = some 0) ∧
    (0 ≤ (50000 : ℚ) → ∃ q, (w1out.rows.get ⟨0, by decide⟩).rent_per_area = some q ∧ 0 ≤ q) :=
  claim_C2 w1df w1out w1_pre 0 (by decide) (by decide) 10 50000 rfl rfl

/-- Witness for C3 at the concrete dataset `w1df`. -/
theorem claim_C3_witness :
    (w1df.rows = [] → w1out = w1df) ∧
    ((w1df.hasDeposit = false → w1out.hasDeposit = false) ∧
     (w1df.hasMonthlyRent = false → w1out.hasMonthlyRent = false) ∧
     (w1df.hasPremium = false → w1out.hasPremium = false) ∧
     (w1df.hasMaintenanceFee = false → w1out.hasMaintenanceFee = false)) ∧
    ∀ i (hi : i < w1df.rows.length) (hi' : i < w1out.rows.length),
      (w1df.hasDeposit = true →
        (w1out.rows.get ⟨i, hi'⟩).deposit =
          ((w1df.rows.get ⟨i, hi⟩).deposit).map (fun x => x * 1000)) ∧
      (w1df.hasMonthlyRent = true →
        (w1out.rows.get ⟨i, hi'⟩).monthlyRent =
          ((w1df.rows.get ⟨i, hi⟩).monthlyRent).map (fun x => x * 1000)) ∧
      (w1df.hasPremium = true →
        (w1out.rows.get ⟨i, hi'⟩).premium =
          ((w1df.rows.get ⟨i, hi⟩).premium).map (fun x => x * 1000)) ∧
      (w1df.hasMaintenanceFee = true →
        (w1out.rows.get ⟨i, hi'⟩).maintenanceFee =
          ((w1df.rows.get ⟨i, hi⟩).maintenanceFee).map (fun x => x * 1000)) :=
  claim_C3 w1df w1out w1_pre

/-- Dataset whose timestamp column holds an unparseable value. -/
def c6row : Row := { blankRow with createdDateUtc := some "not-a-date" }

def c6df : Frame where
  hasDeposit := false
  hasMonthlyRent := true
  hasPremium := false
  hasMaintenanceFee := false
  hasSize := true
  hasViewCount := false
  hasFavoriteCount := false
  hasCreatedDateUtc := true
  rows := [c6row]

/-- Counterexample to C6 as stated: on `c6df`, whose only record carries the
malformed timestamp "not-a-date", the Preprocessor raises instead of storing
a null timestamp. -/
theorem claim_C6_cex : ¬ ∃ df', preprocess_data c6df = Except.ok df' := by
  intro ⟨df', h⟩
  obtain ⟨e, he⟩ := preprocess_error_of_badTS c6df rfl rfl rfl
    ⟨c6row, List.mem_singleton.mpr rfl, "not-a-date", rfl, by decide⟩
  rw [he] at h
  exact Except.noConfusion h

/-- Witness for the amended C6: on `w1df` the parse succeeds positionally,
and on `c6df` the malformed value produces an error. -/
theorem claim_C6_amended_witness :
    (((w1df.rows.get ⟨0, by decide⟩).createdDateUtc = none →
        (w1out.rows.get ⟨0, by decide⟩).createdDate = none) ∧
      (∀ s, (w1df.rows.get ⟨0, by decide⟩).createdDateUtc = some s →
        ∃ d, parseTS s = some d ∧ (w1out.rows.get ⟨0, by decide⟩).createdDate = some d)) ∧
    (∃ e, preprocess_data c6df = Except.error e) :=
  ⟨claim_C6_amended.1 w1df w1out w1_pre rfl 0 (by decide) (by decide),
   claim_C6_amended.2 c6df rfl rfl rfl
     ⟨c6row, List.mem_singleton.mpr rfl, "not-a-date", rfl, by decide⟩⟩

/-- Nonempty dataset with the `size` column absent. -/
def c7df : Frame where
  hasDeposit := false
  hasMonthlyRent := true
  hasPremium := false
  hasMaintenanceFee := false
  hasSize := false
  hasViewCount := true
  hasFavoriteCount := true
  hasCreatedDateUtc := false
  rows := [blankRow]

/-- Counterexample to C7 as stated: with the `size` column absent the
rent-per-area lambda raises `KeyError`, so the Preprocessor aborts instead of
skipping the derivation. -/
theorem claim_C7_cex : ¬ ∃ df', preprocess_data c7df = Except.ok df' := by
  intro ⟨df', h⟩
  have he : preprocess_data c7df = Except.error "KeyError: monthlyRent or size" := rfl
  rw [he] at h
  exact Except.noConfusion h

/-- Dataset missing `viewCount`, `favoriteCount`, `createdDateUtc` and all
four monetary columns except `monthlyRent`. -/
def w7df : Frame where
  hasDeposit := false
  hasMonthlyRent := true
  hasPremium := false
  hasMaintenanceFee := false
  hasSize := true
  hasViewCount := false
  hasFavoriteCount := false
  hasCreatedDateUtc := false
  rows := [blankRow]

/-- Witness for the amended C7 at the concrete dataset `w7df`. -/
theorem claim_C7_amended_witness : ∃ df', preprocess_data w7df = Except.ok df' :=
  claim_C7_amended w7df rfl rfl rfl

/-! ## Filter Engine -/

/-- Case-insensitive character-list containment check. -/
def startsWithCh : List Char → List Char → Bool
  | [], _ => true
  | _ :: _, [] => false
  | a :: as, b :: bs => a == b && startsWithCh as bs

def containsCh (needle : List Char) : List Char → Bool
  | [] => needle.isEmpty
  | b :: bs => startsWithCh needle (b :: bs) || containsCh needle bs

/-- Pandas `series.str.contains(kw, case=False, na=False)` on one cell:
a missing value never matches; otherwise case-insensitive containment. -/
def optContains (c : Option String) (kw : String) : Bool :=
  match c with
  | some s => containsCh kw.toLower.toList s.toLower.toList
  | none => false

/-- Pandas mask `(col >= lo) & (col <= hi)` on one cell: every comparison
with NaN is false, so a missing value fails the range test. -/
def optInRange (c : Option ℚ) (lo hi : ℚ) : Bool :=
  match c with
  | some x => decide (lo ≤ x) && decide (x ≤ hi)
  | none => false

/-- Pandas mask `interestScore >= t` on one cell (false on NaN). -/
def optGeInterest (t : ℚ) (c : Option ℚ) : Bool :=
  match c with
  | some x => decide (t ≤ x)
  | none => false

/-- The numeric columns a range predicate can target (app.py lines 271-275). -/
inductive NumField where
  | deposit
  | monthlyRent
  | size
  deriving DecidableEq

def numGet : NumField → Row → Option ℚ
  | .deposit, r => r.deposit
  | .monthlyRent, r => r.monthlyRent
  | .size, r => r.size

/-- The text columns a keyword predicate can target (app.py lines 188-191). -/
inductive KwField where
  | title
  | nearSubwayStation
  deriving DecidableEq

def kwGet : KwField → Row → Option String
  | .title, r => r.title
  | .nearSubwayStation, r => r.nearSubwayStation

/-- The supported predicate kinds of the Filter Engine: category equality
(large/middle), inclusive numeric range, case-insensitive keyword substring,
and minimum interest threshold. -/
inductive Pred where
  | catLarge (v : String)
  | catMiddle (v : String)
  | numRange (f : NumField) (lo hi : ℚ)
  | keyword (f : KwField) (kw : String)
  | minInterest (t : ℚ)

/-- Row-level evaluation of one predicate, with the pandas mask semantics of
app.py lines 257-275 and 187-192. -/
def evalPred : Pred → Row → Bool
  | .catLarge v, r => r.businessLargeCodeName == some v
  | .catMiddle v, r => r.businessMiddleCodeName == some v
  | .numRange f lo hi, r => optInRange (numGet f r) lo hi
  | .keyword f kw, r => optContains (kwGet f r) kw
  | .minInterest t, r => optGeInterest t r.interestScore

/-- Filtering by a single predicate (`df[mask]`). -/
def filterRows (p : Pred) (rows : List Row) : List Row :=
  rows.filter (evalPred p)

/-- Filtering by the conjunction of two predicates in one pass
(`df[mask1 & mask2]`). -/
def filterConj (p q : Pred) (rows : List Row) : List Row :=
  rows.filter (fun r => evalPred p r && evalPred q r)

lemma filter_and_eq (f g : Row → Bool) (rows : List Row) :
    rows.filter (fun r => f r && g r) = (rows.filter f).filter g := by
  induction rows with
  | nil => rfl
  | cons a l ih => cases hf : f a <;> cases hg : g a <;> simp [List.filter_cons, hf, hg, ih]

lemma filter_swap (f g : Row → Bool) (rows : List Row) :
    (rows.filter f).filter g = (rows.filter g).filter f := by
  rw [← filter_and_eq, ← filter_and_eq]
  exact List.filter_congr (fun a _ => Bool.and_comm (f a) (g a))

/-- C4: conjunctive filtering in one pass equals sequential filtering, and the
order of the two predicates does not matter, for every pair of supported
predicates and every dataset. -/
theorem claim_C4 (p q : Pred) (rows : List Row) :
    filterConj p q rows = filterRows q (filterRows p rows) ∧
    filterRows q (filterRows p rows) = filterRows p (filterRows q rows) :=
  ⟨filter_and_eq (evalPred p) (evalPred q) rows,
   filter_swap (evalPred p) (evalPred q) rows⟩

/-! ## The main-pipeline filter chain (app.py lines 253-275 and 178-192) -/

/-- Large-category selector: the sentinel "전체" (all) disables the filter. -/
def catLargeFilter (sel : String) (rows : List Row) : List Row :=
  if sel == "전체" then rows
  else rows.filter (fun r => r.businessLargeCodeName == some sel)

/-- Middle-category selector, same sentinel. -/
def catMiddleFilter (sel : String) (rows : List Row) : List Row :=
  if sel == "전체" then rows
  else rows.filter (fun r => r.businessMiddleCodeName == some sel)

/-- The combined range mask of app.py lines 271-275; slider values are
integers in 만원 (deposit, rent) and ㎡ (size), scaled by 10000 for money. -/
def rangePred (dl dh rl rh sl sh : ℤ) (r : Row) : Bool :=
  optInRange r.deposit ((dl * 10000 : ℤ) : ℚ) ((dh * 10000 : ℤ) : ℚ) &&
  optInRange r.monthlyRent ((rl * 10000 : ℤ) : ℚ) ((rh * 10000 : ℤ) : ℚ) &&
  optInRange r.size ((sl : ℤ) : ℚ) ((sh : ℤ) : ℚ)

/-- The sidebar filter pipeline of `main`: large category, middle category,
then the unconditional range mask. -/
def mainFilter (selL selM : String) (dl dh rl rh sl sh : ℤ) (rows : List Row) : List Row :=
  (catMiddleFilter selM (catLargeFilter selL rows)).filter (rangePred dl dh rl rh sl sh)

/-- Pandas `series.max()`: NaN-skipping maximum, `none` when no value. -/
def colMax (f : Row → Option ℚ) : List Row → Option ℚ
  | [] => none
  | r :: rs =>
    match f r, colMax f rs with
    | none, m => m
    | some x, none => some x
    | some x, some m => some (max x m)

/-- Python `int()` on a rational: truncation toward zero. -/
def pytrunc (q : ℚ) : ℤ := q.num / (q.den : ℤ)

/-- Default upper bound of the deposit slider: `int(df['deposit'].max()/10000)`
(app.py line 267); `0` is a junk value for the unreachable all-NaN case, where
the code itself would raise on `int(nan)`. -/
def defaultDepHi (rows : List Row) : ℤ :=
  match colMax (fun r => r.deposit) rows with
  | some m => pytrunc (m / 10000)
  | none => 0

/-- Default upper bound of the rent slider (app.py line 268). -/
def defaultRentHi (rows : List Row) : ℤ :=
  match colMax (fun r => r.monthlyRent) rows with
  | some m => pytrunc (m / 10000)
  | none => 0

/-- Default upper bound of the size slider: `int(df['size'].max())`
(app.py line 269). -/
def defaultSizeHi (rows : List Row) : ℤ :=
  match colMax (fun r => r.size) rows with
  | some m => pytrunc m
  | none => 0

/-- The search-section filters (app.py lines 187-192): keyword filters are
skipped on an empty (falsy) string, the interest threshold is applied
unconditionally. -/
def searchFilter (kw sub : String) (minI : ℤ) (rows : List Row) : List Row :=
  (if sub == ""
   then (if kw == "" then rows else rows.filter (fun r => optContains r.title kw))
   else (if kw == "" then rows
         else rows.filter (fun r => optContains r.title kw)).filter
          (fun r => optContains r.nearSubwayStation sub)).filter
    (fun r => optGeInterest ((minI : ℤ) : ℚ) r.interestScore)

/-- The whole filter chain with every predicate disabled: both category
selectors at "전체", every slider at its full default extent, both keyword
fields empty, interest threshold 0. -/
def allDisabled (rows : List Row) : List Row :=
  searchFilter "" "" 0
    (mainFilter "전체" "전체" 0 (defaultDepHi rows) 0 (defaultRentHi rows)
      0 (defaultSizeHi rows) rows)

/-- C10: the range mask of `main` is applied unconditionally, and a record
whose deposit, monthlyRent or size cell is missing fails every range
comparison, so it is excluded from the filtered dataset for every choice of
selector values and slider bounds. -/
theorem claim_C10 (selL selM : String) (dl dh rl rh sl sh : ℤ) (rows : List Row) (r : Row)
    (hnull : r.deposit = none ∨ r.monthlyRent = none ∨ r.size = none) :
    r ∉ mainFilter selL selM dl dh rl rh sl sh rows := by
  intro hmem
  unfold mainFilter at hmem
  have hpred := List.of_mem_filter hmem
  rcases hnull with h0 | h0 | h0 <;> simp [rangePred, optInRange, h0] at hpred

/-- Witness for C10: the all-missing record is excluded even with wide bounds. -/
theorem claim_C10_witness :
    blankRow ∉ mainFilter "전체" "전체" 0 100 0 100 0 100 [blankRow] :=
  claim_C10 "전체" "전체" 0 100 0 100 0 100 [blankRow] blankRow (Or.inl rfl)

/-- A record whose deposit (5000, i.e. raw 5 before scaling) is not a multiple
of 10000: the default deposit slider maximum truncates to
`int(5000/10000) = 0`, so the record fails its own default range. -/
def c5row : Row :=
  { blankRow with
    deposit := some 5000
    monthlyRent := some 0
    size := some 1
    interestScore := some 0 }

/-- Counterexample to C5 as stated: with every predicate disabled, the record
`c5row` is dropped by the default (truncated) deposit slider bound, so the
filter chain does not return the dataset unchanged. -/
theorem claim_C5_cex : allDisabled [c5row] ≠ [c5row] := by
  have hempty : allDisabled [c5row] = [] := by
    norm_num [allDisabled, searchFilter, mainFilter, catLargeFilter, catMiddleFilter,
      rangePred, optInRange, optGeInterest, defaultDepHi, defaultRentHi, defaultSizeHi,
      colMax, pytrunc, c5row, blankRow, List.filter]
  rw [hempty]
  simp

lemma colMax_le (f : Row → Option ℚ) {rows : List Row} {r : Row} {x : ℚ}
    (hr : r ∈ rows) (hx : f r = some x) :
    ∃ m, colMax f rows = some m ∧ x ≤ m := by
  induction rows with
  | nil => simp at hr
  | cons a as ih =>
    rcases List.mem_cons.mp hr with rfl | hmem
    · cases hm : colMax f as with
      | none => exact ⟨x, by simp [colMax, hx, hm], le_refl x⟩
      | some m => exact ⟨max x m, by simp [colMax, hx, hm], le_max_left x m⟩
    · rcases ih hmem with ⟨m, hm, hxm⟩
      cases ha : f a with
      | none => exact ⟨m, by simp [colMax, ha, hm], hxm⟩
      | some y => exact ⟨max y m, by simp [colMax, ha, hm], le_trans hxm (le_max_right y m)⟩

lemma colMax_scaled {c : ℚ} {f : Row → Option ℚ} {rows : List Row}
    (hall : ∀ r ∈ rows, ∃ k : ℕ, f r = some (c * k)) :
    ∀ m, colMax f rows = some m → ∃ K : ℕ, m = c * K := by
  induction rows with
  | nil => intro m hm; simp [colMax] at hm
  | cons a as ih =>
    intro m hm
    obtain ⟨ka, hka⟩ := hall a (by simp)
    have hall2 : ∀ r ∈ as, ∃ k : ℕ, f r = some (c * k) := fun r hr => hall r (by simp [hr])
    cases hca : colMax f as with
    | none =>
      have heq : colMax f (a :: as) = some (c * ka) := by simp [colMax, hka, hca]
      rw [heq] at hm
      exact ⟨ka, (Option.some.inj hm).symm⟩
    | some m0 =>
      obtain ⟨K0, hK0⟩ := ih hall2 m0 hca
      have heq : colMax f (a :: as) = some (max (c * ka) m0) := by simp [colMax, hka, hca]
      rw [heq] at hm
      obtain rfl : max (c * ka) m0 = m := Option.some.inj hm
      rcases le_total (c * ka) m0 with hle | hle
      · exact ⟨K0, by rw [max_eq_right hle, hK0]⟩
      · exact ⟨ka, by rw [max_eq_left hle]⟩

lemma pytrunc_natCast (K : ℕ) : pytrunc ((K : ℕ) : ℚ) = (K : ℤ) := by
  unfold pytrunc
  rw [Rat.num_natCast, Rat.den_natCast]
  simp

/-- C5 (amended): with every predicate disabled the filter chain returns the
dataset unchanged, provided every record has its deposit and monthlyRent
present as non-negative multiples of 10000 (whole 만원 after conversion), its
size present as a non-negative integer, and a present non-negative
interestScore.  Without the multiple/integer proviso the identity fails,
because the default slider maxima truncate (`int(max/10000)·10000` and
`int(max)` can be smaller than the true maxima). -/
theorem claim_C5_amended (rows : List Row)
    (hdep : ∀ r ∈ rows, ∃ k : ℕ, r.deposit = some ((10000 : ℚ) * k))
    (hrent : ∀ r ∈ rows, ∃ k : ℕ, r.monthlyRent = some ((10000 : ℚ) * k))
    (hsize : ∀ r ∈ rows, ∃ k : ℕ, r.size = some ((k : ℕ) : ℚ))
    (hint : ∀ r ∈ rows, ∃ q : ℚ, r.interestScore = some q ∧ 0 ≤ q) :
    allDisabled rows = rows := by
  have hsize2 : ∀ r ∈ rows, ∃ k : ℕ, r.size = some ((1 : ℚ) * k) := by
    intro r hr
    obtain ⟨k, hk⟩ := hsize r hr
    exact ⟨k, by rw [one_mul]; exact hk⟩
  have hrange : ∀ r ∈ rows,
      rangePred 0 (defaultDepHi rows) 0 (defaultRentHi rows) 0 (defaultSizeHi rows) r = true := by
    intro r hr
    obtain ⟨kd, hkd⟩ := hdep r hr
    obtain ⟨kr, hkr⟩ := hrent r hr
    obtain ⟨ks, hks⟩ := hsize r hr
    have hks1 : r.size = some ((1 : ℚ) * ks) := by rw [hks, one_mul]
    obtain ⟨md, hmd, hxd⟩ := colMax_le (fun row => row.deposit) hr hkd
    obtain ⟨Kd, hKd⟩ := colMax_scaled hdep md hmd
    obtain ⟨mr, hmr, hxr⟩ := colMax_le (fun row => row.monthlyRent) hr hkr
    obtain ⟨Kr, hKr⟩ := colMax_scaled hrent mr hmr
    obtain ⟨ms, hms, hxs⟩ := colMax_le (fun row => row.size) hr hks1
    obtain ⟨Ks, hKs⟩ := colMax_scaled hsize2 ms hms
    have hcancel : ∀ K : ℕ, ((10000 : ℚ) * K) / 10000 = ((K : ℕ) : ℚ) := by
      intro K
      rw [mul_comm, mul_div_assoc]
      norm_num
    have hdhi : defaultDepHi rows = (Kd : ℤ) := by
      simp only [defaultDepHi, hmd, hKd, hcancel, pytrunc_natCast]
    have hrhi : defaultRentHi rows = (Kr : ℤ) := by
      simp only [defaultRentHi, hmr, hKr, hcancel, pytrunc_natCast]
    have hshi : defaultSizeHi rows = (Ks : ℤ) := by
      simp only [defaultSizeHi, hms, hKs, one_mul, pytrunc_natCast]
    have hxd2 : (10000 : ℚ) * kd ≤ 10000 * Kd := hKd ▸ hxd
    have hxr2 : (10000 : ℚ) * kr ≤ 10000 * Kr := hKr ▸ hxr
    have hxs2 : ((ks : ℕ) : ℚ) ≤ Ks := by
      have := hKs ▸ hxs
      simpa using this
    have h0d : (0 : ℚ) ≤ kd := Nat.cast_nonneg kd
    have h0r : (0 : ℚ) ≤ kr := Nat.cast_nonneg kr
    have h0s : (0 : ℚ) ≤ ks := Nat.cast_nonneg ks
    simp only [rangePred, optInRange, hkd, hkr, hks, hdhi, hrhi, hshi, Bool.and_eq_true,
      decide_eq_true_eq]
    refine ⟨⟨⟨?_, ?_⟩, ?_, ?_⟩, ?_, ?_⟩ <;> push_cast
    · nlinarith [h0d]
    · nlinarith [hxd2]
    · nlinarith [h0r]
    · nlinarith [hxr2]
    · nlinarith [h0s]
    · nlinarith [hxs2]
  unfold allDisabled
  have hm : mainFilter "전체" "전체" 0 (defaultDepHi rows) 0 (defaultRentHi rows)
      0 (defaultSizeHi rows) rows = rows := by
    unfold mainFilter catLargeFilter catMiddleFilter
    rw [if_pos (by decide : (("전체" == "전체") = true)),
      if_pos (by decide : (("전체" == "전체") = true))]
    exact List.filter_eq_self.mpr hrange
  rw [hm]
  unfold searchFilter
  rw [if_pos (by decide : (("" == "") = true)), if_pos (by decide : (("" == "") = true))]
  refine List.filter_eq_self.mpr ?_
  intro r hr
  obtain ⟨q, hq, hq0⟩ := hint r hr
  simp only [optGeInterest, hq, decide_eq_true_eq]
  push_cast
  exact hq0

/-- Record satisfying the provisos of the amended C5. -/
def w5row : Row :=
  { blankRow with
    deposit := some ((10000 : ℚ) * (2 : ℕ))
    monthlyRent := some ((10000 : ℚ) * (1 : ℕ))
    size := some ((3 : ℕ) : ℚ)
    interestScore := some 0 }

/-- Witness for the amended C5 at the concrete singleton dataset. -/
theorem claim_C5_amended_witness : allDisabled [w5row] = [w5row] :=
  claim_C5_amended [w5row]
    (fun r hr => by rw [List.mem_singleton] at hr; subst hr; exact ⟨2, rfl⟩)
    (fun r hr => by rw [List.mem_singleton] at hr; subst hr; exact ⟨1, rfl⟩)
    (fun r hr => by rw [List.mem_singleton] at hr; subst hr; exact ⟨3, rfl⟩)
    (fun r hr => by rw [List.mem_singleton] at hr; subst hr; exact ⟨0, rfl, le_refl 0⟩)

/-! ## Record Loader (app.py lines 25-50, wiring in `main` lines 232-244) -/

/-- The source selector of `load_data`. -/
inductive SourceType where
  | db
  | csv
  deriving DecidableEq

/-- The external world `load_data` interacts with: the parse outcome of the
uploaded file (`none` = no file supplied), existence of the two well-known
store paths, and the outcome of the SQL query against the store. -/
structure LoadEnv where
  uploadedParse : Option (Except String Frame)
  primaryExists : Bool
  altExists : Bool
  queryResult : Except String Frame

/-- `pd.DataFrame()`: the empty dataset (no columns, no rows). -/
def emptyFrame : Frame where
  hasDeposit := false
  hasMonthlyRent := false
  hasPremium := false
  hasMaintenanceFee := false
  hasSize := false
  hasViewCount := false
  hasFavoriteCount := false
  hasCreatedDateUtc := false
  rows := []

/-- `load_data` (app.py lines 25-50): the CSV branch is taken only when a file
was supplied; a parse failure is reported (`st.error`) and yields the empty
dataset.  Otherwise the relational branch probes `data/nemo_store.db`, then
`data/nemostore.db`; if neither exists, or the query fails, the empty dataset
is returned.  Every failure is caught, so the function is total. -/
def load_data (source : SourceType) (env : LoadEnv) : Frame :=
  match source, env.uploadedParse with
  | .csv, some (.ok df) => df
  | .csv, some (.error _) => emptyFrame
  | _, _ =>
    if env.primaryExists || env.altExists then
      match env.queryResult with
      | .ok df => df
      | .error _ => emptyFrame
    else emptyFrame

/-- The loading step of `main` (app.py lines 234-240): with the CSV source,
`load_data` is invoked only when a file was uploaded; otherwise `raw_df`
stays the empty dataset. -/
def mainLoad (source : SourceType) (env : LoadEnv) : Frame :=
  match source with
  | .db => load_data .db env
  | .csv =>
    match env.uploadedParse with
    | some _ => load_data .csv env
    | none => emptyFrame

/-- C8: in every failure case — file source selected with no file supplied,
neither store path existing, a failing SQL query, or a failing CSV parse —
the Record Loader yields the empty dataset; being a total function of the
environment it never propagates an exception to its caller. -/
theorem claim_C8 (env : LoadEnv) :
    (env.uploadedParse = none → mainLoad .csv env = emptyFrame) ∧
    (env.primaryExists = false → env.altExists = false → mainLoad .db env = emptyFrame) ∧
    (∀ e, env.queryResult = Except.error e → mainLoad .db env = emptyFrame) ∧
    (∀ e, env.uploadedParse = some (Except.error e) → mainLoad .csv env = emptyFrame) := by
  obtain ⟨up, pe, ae, qr⟩ := env
  refine ⟨?_, ?_, ?_, ?_⟩
  · intro h
    simp only at h
    subst h
    rfl
  · intro h1 h2
    simp only at h1 h2
    subst h1
    subst h2
    rcases up with _ | p <;> rcases qr with e | df <;> rfl
  · intro e h
    simp only at h
    subst h
    rcases up with _ | p <;> rcases pe <;> rcases ae <;> rfl
  · intro e h
    simp only at h
    subst h
    rfl

def c8envA : LoadEnv := ⟨none, true, true, Except.ok w1df⟩

def c8envB : LoadEnv := ⟨some (Except.ok w1df), false, false, Except.error "no table"⟩

def c8envC : LoadEnv := ⟨none, true, false, Except.error "no such table: stores"⟩

def c8envD : LoadEnv := ⟨some (Except.error "ParserError"), true, true, Except.ok w1df⟩

/-- Witness for C8: all four failure cases at concrete environments. -/
theorem claim_C8_witness :
    mainLoad .csv c8envA = emptyFrame ∧ mainLoad .db c8envB = emptyFrame ∧
    mainLoad .db c8envC = emptyFrame ∧ mainLoad .csv c8envD = emptyFrame :=
  ⟨(claim_C8 c8envA).1 rfl, (claim_C8 c8envB).2.1 rfl rfl,
   (claim_C8 c8envC).2.2.1 "no such table: stores" rfl,
   (claim_C8 c8envD).2.2.2 "ParserError" rfl⟩

/-! ## Top-N ranking (`df.nlargest(N, col)`, app.py lines 155 and 162) -/

/-- Sort key of a row, with a default that is never consulted on the rows
`nlargest` keeps (NaN rows are dropped first). -/
def keyD (key : Row → Option ℚ) (r : Row) : ℚ := (key r).getD 0

/-- Stable descending insertion: the new element goes before the first
element whose key is not larger, so an earlier-input element precedes
later-input elements with an equal key. -/
def insertDesc (key : Row → Option ℚ) (a : Row) : List Row → List Row
  | [] => [a]
  | b :: bs => if keyD key b ≤ keyD key a then a :: b :: bs else b :: insertDesc key a bs

/-- Stable descending sort by key. -/
def sortDesc (key : Row → Option ℚ) : List Row → List Row
  | [] => []
  | a :: as => insertDesc key a (sortDesc key as)

/-- `df.nlargest(n, col)` (default `keep='first'`): rows with a NaN key are
dropped, the rest are sorted descending with first-seen-wins ties, and the
first `n` are returned. -/
def nlargest (n : ℕ) (key : Row → Option ℚ) (rows : List Row) : List Row :=
  (sortDesc key (rows.filter (fun r => (key r).isSome))).take n

lemma insertDesc_perm (key : Row → Option ℚ) (a : Row) (l : List Row) :
    (insertDesc key a l).Perm (a :: l) := by
  induction l with
  | nil => simp [insertDesc]
  | cons b bs ih =>
    by_cases hc : keyD key b ≤ keyD key a
    · simp [insertDesc, hc]
    · simp only [insertDesc, if_neg hc]
      exact (ih.cons b).trans (List.Perm.swap a b bs)

lemma sortDesc_perm (key : Row → Option ℚ) (l : List Row) : (sortDesc key l).Perm l := by
  induction l with
  | nil => simp [sortDesc]
  | cons a as ih => exact (insertDesc_perm key a (sortDesc key as)).trans (ih.cons a)

lemma insertDesc_pairwise (key : Row → Option ℚ) (a : Row) {l : List Row}
    (h : l.Pairwise (fun x y => keyD key y ≤ keyD key x)) :
    (insertDesc key a l).Pairwise (fun x y => keyD key y ≤ keyD key x) := by
  induction l with
  | nil => simp [insertDesc]
  | cons b bs ih =>
    rw [List.pairwise_cons] at h
    obtain ⟨hb, hbs⟩ := h
    by_cases hc : keyD key b ≤ keyD key a
    · simp only [insertDesc, if_pos hc]
      refine List.Pairwise.cons ?_ (List.Pairwise.cons hb hbs)
      intro x hx
      rcases List.mem_cons.mp hx with rfl | hx2
      · exact hc
      · exact le_trans (hb x hx2) hc
    · simp only [insertDesc, if_neg hc]
      refine List.Pairwise.cons ?_ (ih hbs)
      intro x hx
      have hx2 := (insertDesc_perm key a bs).mem_iff.mp hx
      rcases List.mem_cons.mp hx2 with rfl | hx3
      · exact le_of_lt (lt_of_not_le hc)
      · exact hb x hx3

lemma sortDesc_pairwise (key : Row → Option ℚ) (l : List Row) :
    (sortDesc key l).Pairwise (fun x y => keyD key y ≤ keyD key x) := by
  induction l with
  | nil => simp [sortDesc]
  | cons a as ih => exact insertDesc_pairwise key a ih

lemma insertDesc_filter_eq (key : Row → Option ℚ) (a : Row) (q : ℚ) (l : List Row) :
    (insertDesc key a l).filter (fun r => key r == some q) =
      (if key a == some q then a :: l.filter (fun r => key r == some q)
       else l.filter (fun r => key r == some q)) := by
  induction l with
  | nil =>
    simp only [insertDesc]
    by_cases hpa : (key a == some q) <;> simp [List.filter, hpa]
  | cons b bs ih =>
    by_cases hc : keyD key b ≤ keyD key a
    · simp only [insertDesc, if_pos hc]
      by_cases hpa : (key a == some q) <;> simp [List.filter_cons, hpa]
    · simp only [insertDesc, if_neg hc]
      by_cases hpa : (key a == some q)
      · have hqa : keyD key a = q := by
          have h1 : key a = some q := by simpa using hpa
          simp [keyD, h1]
        have hpb : (key b == some q) = false := by
          by_contra h2
          have h3 : (key b == some q) = true := by
            revert h2
            cases key b == some q <;> simp
          have hqb : keyD key b = q := by
            have h4 : key b = some q := by simpa using h3
            simp [keyD, h4]
          exact hc (by rw [hqa, hqb])
        simp [List.filter_cons, hpa, hpb, ih]
      · simp [List.filter_cons, hpa, ih]

lemma sortDesc_filter (key : Row → Option ℚ) (q : ℚ) (l : List Row) :
    (sortDesc key l).filter (fun r => key r == some q) =
      l.filter (fun r => key r == some q) := by
  induction l with
  | nil => simp [sortDesc]
  | cons a as ih =>
    simp only [sortDesc]
    rw [insertDesc_filter_eq, List.filter_cons]
    by_cases hpa : (key a == some q) <;> simp [hpa, ih]

/-- C9: when every row has a value of the metric, `nlargest` returns a
descending-sorted selection of `min n |rows|` rows in which every kept row's
key dominates every dropped row's key; ties are broken by stable input order
(for each key value, the kept rows are an initial segment, in input order, of
the input rows with that value); and when `n` is at least the dataset size it
returns the whole dataset sorted descending (a permutation of the input),
without error. -/
theorem claim_C9 (n : ℕ) (key : Row → Option ℚ) (rows : List Row)
    (hall : ∀ r ∈ rows, (key r).isSome = true) :
    (nlargest n key rows).Pairwise (fun a b => keyD key b ≤ keyD key a) ∧
    (nlargest n key rows).length = min n rows.length ∧
    (∀ q : ℚ, (nlargest n key rows).filter (fun r => key r == some q) <+:
      rows.filter (fun r => key r == some q)) ∧
    (∀ a ∈ nlargest n key rows, ∀ b ∈ rows, b ∉ nlargest n key rows →
      keyD key b ≤ keyD key a) ∧
    (rows.length ≤ n →
      nlargest n key rows = sortDesc key rows ∧ (sortDesc key rows).Perm rows) := by
  have hfil : rows.filter (fun r => (key r).isSome) = rows := List.filter_eq_self.mpr hall
  have hnl : nlargest n key rows = (sortDesc key rows).take n := by
    unfold nlargest
    rw [hfil]
  have hperm : (sortDesc key rows).Perm rows := sortDesc_perm key rows
  have hpw : (sortDesc key rows).Pairwise (fun x y => keyD key y ≤ keyD key x) :=
    sortDesc_pairwise key rows
  refine ⟨?_, ?_, ?_, ?_, ?_⟩
  · rw [hnl]
    exact hpw.sublist (List.take_sublist n _)
  · rw [hnl, List.length_take, hperm.length_eq]
  · intro q
    rw [hnl]
    have h2 : (sortDesc key rows).take n <+: sortDesc key rows :=
      ⟨(sortDesc key rows).drop n, List.take_append_drop n _⟩
    have h1 := h2.filter (fun r => key r == some q)
    rw [sortDesc_filter] at h1
    exact h1
  · intro a ha b hb hnb
    rw [hnl] at ha hnb
    have hbs : b ∈ sortDesc key rows := hperm.mem_iff.mpr hb
    rw [← List.take_append_drop n (sortDesc key rows)] at hbs
    have hbd : b ∈ (sortDesc key rows).drop n := by
      rcases List.mem_append.mp hbs with h0 | h0
      · exact absurd h0 hnb
      · exact h0
    have hpw2 := hpw
    rw [← List.take_append_drop n (sortDesc key rows)] at hpw2
    exact (List.pairwise_append.mp hpw2).2.2 a ha b hbd
  · intro hle
    have hlen : (sortDesc key rows).length ≤ n := by
      rw [hperm.length_eq]
      exact hle
    exact ⟨by rw [hnl]; exact List.take_of_length_le hlen, hperm⟩

def w9rowA : Row := { blankRow with title := some "A", rent_per_area := some 7 }

def w9rowB : Row := { blankRow with title := some "B", rent_per_area := some 3 }

/-- Witness for C9: top-5 of a 2-row dataset keyed by `rent_per_area`. -/
theorem claim_C9_witness :
    (nlargest 5 (fun r => r.rent_per_area) [w9rowA, w9rowB]).Pairwise
      (fun a b => keyD (fun r => r.rent_per_area) b ≤ keyD (fun r => r.rent_per_area) a) ∧
    (nlargest 5 (fun r => r.rent_per_area) [w9rowA, w9rowB]).length =
      min 5 [w9rowA, w9rowB].length ∧
    (∀ q : ℚ, (nlargest 5 (fun r => r.rent_per_area) [w9rowA, w9rowB]).filter
        (fun r => r.rent_per_area == some q) <+:
      [w9rowA, w9rowB].filter (fun r => r.rent_per_area == some q)) ∧
    (∀ a ∈ nlargest 5 (fun r => r.rent_per_area) [w9rowA, w9rowB],
      ∀ b ∈ [w9rowA, w9rowB], b ∉ nlargest 5 (fun r => r.rent_per_area) [w9rowA, w9rowB] →
        keyD (fun r => r.rent_per_area) b ≤ keyD (fun r => r.rent_per_area) a) ∧
    ([w9rowA, w9rowB].length ≤ 5 →
      nlargest 5 (fun r => r.rent_per_area) [w9rowA, w9rowB] =
        sortDesc (fun r => r.rent_per_area) [w9rowA, w9rowB] ∧
      (sortDesc (fun r => r.rent_per_area) [w9rowA, w9rowB]).Perm [w9rowA, w9rowB]) :=
  claim_C9 5 (fun r => r.rent_per_area) [w9rowA, w9rowB] (by decide)

end NemoStore
